import Mathlib

/-!
Shallow embedding of the Pong game logic of the kernel demo
(`src/kernel/src/main.rs`): the `GameMode`/`Pong` state, the `fast_rand`
xorshift generator, `reset`, `update`, `move_paddle`, and the keyboard
handler `key`.

Modelling conventions:
* `usize` fields are `Nat`, and every operation that can wrap in release
  builds is taken modulo `2 ^ 64` exactly where the Rust casts or
  arithmetic wrap (`as usize`, `as isize`, `+`, `-`).
* `isize` fields are `Int`; wrapping negation/absolute value are modelled
  by `rustNeg`/`rustAbs` through `wrapI64`.
* `u32` score increments are taken modulo `2 ^ 32`.
* Rust `saturating_sub` on `usize` is `Nat` subtraction.
* the global PRNG seed (`static SEED: AtomicU32`) is threaded explicitly:
  `reset`, `update` and `key` take the current seed and return the new one.
-/

inductive GameMode where
  | Menu
  | OnePlayer
  | TwoPlayer
  | GameOver
deriving DecidableEq

structure Pong where
  game_mode : GameMode
  ball_x : Nat
  ball_y : Nat
  ball_dx : Int
  ball_dy : Int
  player1_y : Nat
  player2_y : Nat
  player1_score : Nat
  player2_score : Nat
  width : Nat
  height : Nat
  paddle_height : Nat
deriving DecidableEq

/-- `x as usize` on a 64-bit machine: reduce an integer modulo `2 ^ 64`. -/
def wrapU64 (x : Int) : Nat := (x % (2 ^ 64 : Int)).toNat

/-- Wrapping of a 64-bit signed value into `[-2 ^ 63, 2 ^ 63)`. -/
def wrapI64 (x : Int) : Int := (x + 2 ^ 63) % (2 ^ 64 : Int) - 2 ^ 63

/-- Rust release-mode `isize` negation (`-x`, wrapping at `isize::MIN`). -/
def rustNeg (x : Int) : Int := wrapI64 (-x)

/-- Rust release-mode `isize::abs` (wrapping at `isize::MIN`). -/
def rustAbs (x : Int) : Int := wrapI64 (x.natAbs : Int)

/-- `fast_rand`: one xorshift step on the `u32` seed; the function stores
and returns the new seed value. -/
def fast_rand (seed : Nat) : Nat :=
  let x0 := seed % 2 ^ 32
  let x1 := (x0 ^^^ (x0 <<< 13)) % 2 ^ 32
  let x2 := (x1 ^^^ (x1 >>> 17)) % 2 ^ 32
  (x2 ^^^ (x2 <<< 5)) % 2 ^ 32

/-- `Pong::new(width, height)`. -/
def Pong.new (width height : Nat) : Pong where
  game_mode := GameMode.Menu
  ball_x := width / 2
  ball_y := height / 2
  ball_dx := 1
  ball_dy := 1
  player1_y := height / 2
  player2_y := height / 2
  player1_score := 0
  player2_score := 0
  width := width
  height := height
  paddle_height := 50

/-- `Pong::reset`: recenter the ball and paddles and draw the two ball
direction signs from `fast_rand` (two generator steps, seed threaded). -/
def Pong.reset (s : Pong) (seed : Nat) : Pong × Nat :=
  let r1 := fast_rand seed
  let r2 := fast_rand r1
  ({ s with
      ball_x := s.width / 2
      ball_y := s.height / 2
      ball_dx := if r1 % 2 = 0 then 1 else -1
      ball_dy := if r2 % 2 = 0 then 1 else -1
      player1_y := s.height / 2
      player2_y := s.height / 2 }, r2)

/-- `Pong::move_paddle`: step 25, `saturating_sub` upward, and downward
clamped by `min` against the wrapping `usize` difference
`height - paddle_height`. -/
def Pong.move_paddle (s : Pong) (is_player1 up : Bool) : Pong :=
  if is_player1 then
    { s with player1_y :=
        if up then s.player1_y - 25
        else min ((s.player1_y + 25) % 2 ^ 64) (wrapU64 ((s.height : Int) - (s.paddle_height : Int))) }
  else
    { s with player2_y :=
        if up then s.player2_y - 25
        else min ((s.player2_y + 25) % 2 ^ 64) (wrapU64 ((s.height : Int) - (s.paddle_height : Int))) }

/-- The `paddle_hit` closure of `Pong::update`, evaluated on the already
advanced ball position. -/
def Pong.paddle_hit (s : Pong) (paddle_x paddle_y : Nat) : Bool :=
  decide (paddle_x - 3 ≤ s.ball_x) && decide (s.ball_x ≤ (paddle_x + 3) % 2 ^ 64) &&
    decide (paddle_y ≤ s.ball_y) && decide (s.ball_y ≤ (paddle_y + s.paddle_height) % 2 ^ 64)

/-- Ball advance of `Pong::update`: `ball_x = (ball_x as isize + dx*36) as usize`
(the intermediate wrapping composes to a single reduction modulo `2 ^ 64`). -/
def Pong.advanceBall (s : Pong) : Pong :=
  { s with
      ball_x := wrapU64 ((s.ball_x : Int) + s.ball_dx * 36)
      ball_y := wrapU64 ((s.ball_y : Int) + s.ball_dy * 36) }

/-- Top/bottom reflection of `Pong::update`: flip `ball_dy` when
`ball_y <= 1 || ball_y >= height - 2` (wrapping `usize` subtraction). -/
def Pong.bounceY (s : Pong) : Pong :=
  { s with ball_dy :=
      if s.ball_y ≤ 1 ∨ wrapU64 ((s.height : Int) - 2) ≤ s.ball_y then rustNeg s.ball_dy
      else s.ball_dy }

/-- Paddle contact of `Pong::update`: left paddle forces `dx` positive,
right paddle (at the wrapping `width - 10`) then forces it negative. -/
def Pong.paddleStep (s : Pong) : Pong :=
  let dx1 := if s.paddle_hit 10 s.player1_y then rustAbs s.ball_dx else s.ball_dx
  let dx2 :=
    if s.paddle_hit (wrapU64 ((s.width : Int) - 10)) s.player2_y then rustNeg (rustAbs dx1)
    else dx1
  { s with ball_dx := dx2 }

/-- Scoring of `Pong::update`: `ball_x <= 0` scores for player two,
otherwise `ball_x >= width` scores for player one; either branch runs
`reset`. The `u32` score increment wraps modulo `2 ^ 32`. -/
def Pong.scoringStep (s : Pong) (seed : Nat) : Pong × Nat :=
  if s.ball_x ≤ 0 then
    Pong.reset { s with player2_score := (s.player2_score + 1) % 2 ^ 32 } seed
  else if s.width ≤ s.ball_x then
    Pong.reset { s with player1_score := (s.player1_score + 1) % 2 ^ 32 } seed
  else (s, seed)

/-- Game-over test of `Pong::update`: either score at least 1. -/
def Pong.gameOverStep (s : Pong) : Pong :=
  if 1 ≤ s.player1_score ∨ 1 ≤ s.player2_score then { s with game_mode := GameMode.GameOver }
  else s

/-- One-player AI of `Pong::update`: move the right paddle one step toward
`ball_y.saturating_sub(paddle_height / 2)`. -/
def Pong.aiStep (s : Pong) : Pong :=
  if s.game_mode = GameMode.OnePlayer then
    let target_y := s.ball_y - s.paddle_height / 2
    let ai_paddle_center := (s.player2_y + s.paddle_height / 2) % 2 ^ 64
    if ai_paddle_center < target_y then s.move_paddle false false
    else if target_y < ai_paddle_center then s.move_paddle false true
    else s
  else s

/-- `Pong::update`: early return unless the mode is `OnePlayer` or
`TwoPlayer`; otherwise advance, bounce, paddle contact, scoring,
game-over test, then AI, in the source order. -/
def Pong.update (s : Pong) (seed : Nat) : Pong × Nat :=
  if s.game_mode = GameMode.OnePlayer ∨ s.game_mode = GameMode.TwoPlayer then
    let p := Pong.scoringStep (Pong.paddleStep (Pong.bounceY (Pong.advanceBall s))) seed
    (Pong.aiStep (Pong.gameOverStep p.1), p.2)
  else (s, seed)

/-- The keyboard handler `key` on a decoded `Unicode` character
(a `RawKey` falls into the wildcard arm and changes nothing). -/
def key (c : Char) (s : Pong) (seed : Nat) : Pong × Nat :=
  if c = '1' ∧ s.game_mode = GameMode.Menu then
    let r := s.reset seed
    ({ r.1 with game_mode := GameMode.OnePlayer }, r.2)
  else if c = '2' ∧ s.game_mode = GameMode.Menu then
    let r := s.reset seed
    ({ r.1 with game_mode := GameMode.TwoPlayer }, r.2)
  else if c = 'r' ∧ s.game_mode = GameMode.GameOver then
    ({ s with player1_score := 0, player2_score := 0, game_mode := GameMode.Menu }, seed)
  else if c = 'p' ∧ s.game_mode = GameMode.GameOver then
    let last_mode := if 1 ≤ s.player1_score then GameMode.OnePlayer else GameMode.TwoPlayer
    let r := s.reset seed
    ({ r.1 with player1_score := 0, player2_score := 0, game_mode := last_mode }, r.2)
  else if c = 'w' then (s.move_paddle true true, seed)
  else if c = 's' then (s.move_paddle true false, seed)
  else if c = 'i' ∧ s.game_mode = GameMode.TwoPlayer then (s.move_paddle false true, seed)
  else if c = 'k' ∧ s.game_mode = GameMode.TwoPlayer then (s.move_paddle false false, seed)
  else (s, seed)

/-- A finite sequence of `move_paddle` calls, each entry giving the
`(is_player1, up)` arguments. -/
def movePaddles (s : Pong) (ms : List (Bool × Bool)) : Pong :=
  ms.foldl (fun t m => t.move_paddle m.1 m.2) s

/-! Frame lemmas: which fields each stage of `update` leaves unchanged. -/

@[simp] theorem Pong.move_paddle_game_mode (s : Pong) (b u : Bool) :
    (s.move_paddle b u).game_mode = s.game_mode := by cases b <;> cases u <;> rfl

@[simp] theorem Pong.move_paddle_ball_x (s : Pong) (b u : Bool) :
    (s.move_paddle b u).ball_x = s.ball_x := by cases b <;> cases u <;> rfl

@[simp] theorem Pong.move_paddle_ball_y (s : Pong) (b u : Bool) :
    (s.move_paddle b u).ball_y = s.ball_y := by cases b <;> cases u <;> rfl

@[simp] theorem Pong.move_paddle_ball_dx (s : Pong) (b u : Bool) :
    (s.move_paddle b u).ball_dx = s.ball_dx := by cases b <;> cases u <;> rfl

@[simp] theorem Pong.move_paddle_ball_dy (s : Pong) (b u : Bool) :
    (s.move_paddle b u).ball_dy = s.ball_dy := by cases b <;> cases u <;> rfl

@[simp] theorem Pong.move_paddle_player1_score (s : Pong) (b u : Bool) :
    (s.move_paddle b u).player1_score = s.player1_score := by cases b <;> cases u <;> rfl

@[simp] theorem Pong.move_paddle_player2_score (s : Pong) (b u : Bool) :
    (s.move_paddle b u).player2_score = s.player2_score := by cases b <;> cases u <;> rfl

@[simp] theorem Pong.move_paddle_width (s : Pong) (b u : Bool) :
    (s.move_paddle b u).width = s.width := by cases b <;> cases u <;> rfl

@[simp] theorem Pong.move_paddle_height (s : Pong) (b u : Bool) :
    (s.move_paddle b u).height = s.height := by cases b <;> cases u <;> rfl

@[simp] theorem Pong.move_paddle_ph (s : Pong) (b u : Bool) :
    (s.move_paddle b u).paddle_height = s.paddle_height := by cases b <;> cases u <;> rfl

@[simp] theorem Pong.move_paddle_false_player1_y (s : Pong) (u : Bool) :
    (s.move_paddle false u).player1_y = s.player1_y := by cases u <;> rfl

@[simp] theorem Pong.move_paddle_true_player2_y (s : Pong) (u : Bool) :
    (s.move_paddle true u).player2_y = s.player2_y := by cases u <;> rfl

@[simp] theorem Pong.aiStep_game_mode (s : Pong) : s.aiStep.game_mode = s.game_mode := by
  simp only [Pong.aiStep]; split_ifs <;> simp

@[simp] theorem Pong.aiStep_ball_x (s : Pong) : s.aiStep.ball_x = s.ball_x := by
  simp only [Pong.aiStep]; split_ifs <;> simp

@[simp] theorem Pong.aiStep_ball_y (s : Pong) : s.aiStep.ball_y = s.ball_y := by
  simp only [Pong.aiStep]; split_ifs <;> simp

@[simp] theorem Pong.aiStep_ball_dx (s : Pong) : s.aiStep.ball_dx = s.ball_dx := by
  simp only [Pong.aiStep]; split_ifs <;> simp

@[simp] theorem Pong.aiStep_ball_dy (s : Pong) : s.aiStep.ball_dy = s.ball_dy := by
  simp only [Pong.aiStep]; split_ifs <;> simp

@[simp] theorem Pong.aiStep_player1_score (s : Pong) : s.aiStep.player1_score = s.player1_score := by
  simp only [Pong.aiStep]; split_ifs <;> simp

@[simp] theorem Pong.aiStep_player2_score (s : Pong) : s.aiStep.player2_score = s.player2_score := by
  simp only [Pong.aiStep]; split_ifs <;> simp

@[simp] theorem Pong.aiStep_width (s : Pong) : s.aiStep.width = s.width := by
  simp only [Pong.aiStep]; split_ifs <;> simp

@[simp] theorem Pong.aiStep_height (s : Pong) : s.aiStep.height = s.height := by
  simp only [Pong.aiStep]; split_ifs <;> simp

@[simp] theorem Pong.aiStep_ph (s : Pong) : s.aiStep.paddle_height = s.paddle_height := by
  simp only [Pong.aiStep]; split_ifs <;> simp

@[simp] theorem Pong.aiStep_player1_y (s : Pong) : s.aiStep.player1_y = s.player1_y := by
  simp only [Pong.aiStep]; split_ifs <;> simp

theorem Pong.aiStep_of_ne (s : Pong) (h : s.game_mode ≠ GameMode.OnePlayer) :
    s.aiStep = s := by unfold Pong.aiStep; rw [if_neg h]

@[simp] theorem Pong.gameOverStep_ball_x (s : Pong) : s.gameOverStep.ball_x = s.ball_x := by
  unfold Pong.gameOverStep; split_ifs <;> rfl

@[simp] theorem Pong.gameOverStep_ball_y (s : Pong) : s.gameOverStep.ball_y = s.ball_y := by
  unfold Pong.gameOverStep; split_ifs <;> rfl

@[simp] theorem Pong.gameOverStep_ball_dx (s : Pong) : s.gameOverStep.ball_dx = s.ball_dx := by
  unfold Pong.gameOverStep; split_ifs <;> rfl

@[simp] theorem Pong.gameOverStep_ball_dy (s : Pong) : s.gameOverStep.ball_dy = s.ball_dy := by
  unfold Pong.gameOverStep; split_ifs <;> rfl

@[simp] theorem Pong.gameOverStep_player1_score (s : Pong) :
    s.gameOverStep.player1_score = s.player1_score := by
  unfold Pong.gameOverStep; split_ifs <;> rfl

@[simp] theorem Pong.gameOverStep_player2_score (s : Pong) :
    s.gameOverStep.player2_score = s.player2_score := by
  unfold Pong.gameOverStep; split_ifs <;> rfl

@[simp] theorem Pong.gameOverStep_width (s : Pong) : s.gameOverStep.width = s.width := by
  unfold Pong.gameOverStep; split_ifs <;> rfl

@[simp] theorem Pong.gameOverStep_height (s : Pong) : s.gameOverStep.height = s.height := by
  unfold Pong.gameOverStep; split_ifs <;> rfl

@[simp] theorem Pong.gameOverStep_ph (s : Pong) :
    s.gameOverStep.paddle_height = s.paddle_height := by
  unfold Pong.gameOverStep; split_ifs <;> rfl

theorem Pong.gameOverStep_mode_of (s : Pong)
    (h : 1 ≤ s.player1_score ∨ 1 ≤ s.player2_score) :
    s.gameOverStep.game_mode = GameMode.GameOver := by
  unfold Pong.gameOverStep; rw [if_pos h]

@[simp] theorem Pong.advanceBall_game_mode (s : Pong) :
    s.advanceBall.game_mode = s.game_mode := rfl

@[simp] theorem Pong.advanceBall_ball_dx (s : Pong) : s.advanceBall.ball_dx = s.ball_dx := rfl

@[simp] theorem Pong.advanceBall_ball_dy (s : Pong) : s.advanceBall.ball_dy = s.ball_dy := rfl

@[simp] theorem Pong.advanceBall_player1_score (s : Pong) :
    s.advanceBall.player1_score = s.player1_score := rfl

@[simp] theorem Pong.advanceBall_player2_score (s : Pong) :
    s.advanceBall.player2_score = s.player2_score := rfl

@[simp] theorem Pong.advanceBall_width (s : Pong) : s.advanceBall.width = s.width := rfl

@[simp] theorem Pong.advanceBall_height (s : Pong) : s.advanceBall.height = s.height := rfl

@[simp] theorem Pong.advanceBall_ph (s : Pong) :
    s.advanceBall.paddle_height = s.paddle_height := rfl

theorem Pong.advanceBall_ball_x (s : Pong) :
    s.advanceBall.ball_x = wrapU64 ((s.ball_x : Int) + s.ball_dx * 36) := rfl

theorem Pong.advanceBall_ball_y (s : Pong) :
    s.advanceBall.ball_y = wrapU64 ((s.ball_y : Int) + s.ball_dy * 36) := rfl

@[simp] theorem Pong.bounceY_game_mode (s : Pong) : s.bounceY.game_mode = s.game_mode := rfl

@[simp] theorem Pong.bounceY_ball_x (s : Pong) : s.bounceY.ball_x = s.ball_x := rfl

@[simp] theorem Pong.bounceY_ball_y (s : Pong) : s.bounceY.ball_y = s.ball_y := rfl

@[simp] theorem Pong.bounceY_ball_dx (s : Pong) : s.bounceY.ball_dx = s.ball_dx := rfl

@[simp] theorem Pong.bounceY_player1_score (s : Pong) :
    s.bounceY.player1_score = s.player1_score := rfl

@[simp] theorem Pong.bounceY_player2_score (s : Pong) :
    s.bounceY.player2_score = s.player2_score := rfl

@[simp] theorem Pong.bounceY_width (s : Pong) : s.bounceY.width = s.width := rfl

@[simp] theorem Pong.bounceY_height (s : Pong) : s.bounceY.height = s.height := rfl

@[simp] theorem Pong.bounceY_ph (s : Pong) : s.bounceY.paddle_height = s.paddle_height := rfl

theorem Pong.bounceY_ball_dy (s : Pong) :
    s.bounceY.ball_dy =
      if s.ball_y ≤ 1 ∨ wrapU64 ((s.height : Int) - 2) ≤ s.ball_y then rustNeg s.ball_dy
      else s.ball_dy := rfl

@[simp] theorem Pong.paddleStep_game_mode (s : Pong) :
    s.paddleStep.game_mode = s.game_mode := rfl

@[simp] theorem Pong.paddleStep_ball_x (s : Pong) : s.paddleStep.ball_x = s.ball_x := rfl

@[simp] theorem Pong.paddleStep_ball_y (s : Pong) : s.paddleStep.ball_y = s.ball_y := rfl

@[simp] theorem Pong.paddleStep_ball_dy (s : Pong) : s.paddleStep.ball_dy = s.ball_dy := rfl

@[simp] theorem Pong.paddleStep_player1_score (s : Pong) :
    s.paddleStep.player1_score = s.player1_score := rfl

@[simp] theorem Pong.paddleStep_player2_score (s : Pong) :
    s.paddleStep.player2_score = s.player2_score := rfl

@[simp] theorem Pong.paddleStep_width (s : Pong) : s.paddleStep.width = s.width := rfl

@[simp] theorem Pong.paddleStep_height (s : Pong) : s.paddleStep.height = s.height := rfl

@[simp] theorem Pong.paddleStep_ph (s : Pong) :
    s.paddleStep.paddle_height = s.paddle_height := rfl

@[simp] theorem Pong.reset_game_mode (s : Pong) (seed : Nat) :
    (s.reset seed).1.game_mode = s.game_mode := rfl

@[simp] theorem Pong.reset_player1_score (s : Pong) (seed : Nat) :
    (s.reset seed).1.player1_score = s.player1_score := rfl

@[simp] theorem Pong.reset_player2_score (s : Pong) (seed : Nat) :
    (s.reset seed).1.player2_score = s.player2_score := rfl

@[simp] theorem Pong.reset_width (s : Pong) (seed : Nat) :
    (s.reset seed).1.width = s.width := rfl

@[simp] theorem Pong.reset_height (s : Pong) (seed : Nat) :
    (s.reset seed).1.height = s.height := rfl

@[simp] theorem Pong.reset_ph (s : Pong) (seed : Nat) :
    (s.reset seed).1.paddle_height = s.paddle_height := rfl

@[simp] theorem Pong.reset_ball_x (s : Pong) (seed : Nat) :
    (s.reset seed).1.ball_x = s.width / 2 := rfl

@[simp] theorem Pong.reset_ball_y (s : Pong) (seed : Nat) :
    (s.reset seed).1.ball_y = s.height / 2 := rfl

theorem Pong.reset_ball_dx (s : Pong) (seed : Nat) :
    (s.reset seed).1.ball_dx = if fast_rand seed % 2 = 0 then 1 else -1 := rfl

theorem Pong.reset_ball_dy (s : Pong) (seed : Nat) :
    (s.reset seed).1.ball_dy = if fast_rand (fast_rand seed) % 2 = 0 then 1 else -1 := rfl

@[simp] theorem Pong.reset_seed (s : Pong) (seed : Nat) :
    (s.reset seed).2 = fast_rand (fast_rand seed) := rfl

theorem Pong.scoringStep_left (s : Pong) (seed : Nat) (h : s.ball_x = 0) :
    s.scoringStep seed = Pong.reset { s with player2_score := (s.player2_score + 1) % 2 ^ 32 } seed := by
  unfold Pong.scoringStep; rw [if_pos (by omega)]

theorem Pong.scoringStep_right (s : Pong) (seed : Nat) (h0 : 0 < s.ball_x)
    (hw : s.width ≤ s.ball_x) :
    s.scoringStep seed = Pong.reset { s with player1_score := (s.player1_score + 1) % 2 ^ 32 } seed := by
  unfold Pong.scoringStep; rw [if_neg (by omega), if_pos hw]

theorem Pong.scoringStep_none (s : Pong) (seed : Nat) (h0 : 0 < s.ball_x)
    (hw : s.ball_x < s.width) :
    s.scoringStep seed = (s, seed) := by
  unfold Pong.scoringStep; rw [if_neg (by omega), if_neg (by omega)]

/-! Concrete game states used by the closed theorems below. -/

/-- A two-player rally about to leave the board on the right. -/
def sTwoPlayerWin : Pong where
  game_mode := GameMode.TwoPlayer
  ball_x := 70
  ball_y := 50
  ball_dx := 1
  ball_dy := 1
  player1_y := 25
  player2_y := 25
  player1_score := 0
  player2_score := 0
  width := 100
  height := 100
  paddle_height := 50

/-- A one-player game whose next update wins the point for player one. -/
def sOnePlayerWin : Pong where
  game_mode := GameMode.OnePlayer
  ball_x := 60
  ball_y := 40
  ball_dx := 1
  ball_dy := 1
  player1_y := 100
  player2_y := 100
  player1_score := 0
  player2_score := 0
  width := 90
  height := 200
  paddle_height := 50

/-- A finished game. -/
def sFinished : Pong where
  game_mode := GameMode.GameOver
  ball_x := 45
  ball_y := 100
  ball_dx := 1
  ball_dy := 1
  player1_y := 100
  player2_y := 100
  player1_score := 1
  player2_score := 0
  width := 90
  height := 200
  paddle_height := 50

/-- A one-player state with the ball at the top boundary moving up. -/
def sTopWrap : Pong where
  game_mode := GameMode.OnePlayer
  ball_x := 500
  ball_y := 1
  ball_dx := 1
  ball_dy := -1
  player1_y := 300
  player2_y := 300
  player1_score := 0
  player2_score := 0
  width := 1000
  height := 600
  paddle_height := 50

/-- Claim C8: a single `update` call leaves the `width`, `height` and
`paddle_height` fields unchanged, in every mode. -/
theorem update_preserves_geometry (s : Pong) (seed : Nat) :
    (s.update seed).1.width = s.width ∧ (s.update seed).1.height = s.height ∧
      (s.update seed).1.paddle_height = s.paddle_height := by
  simp only [Pong.update]
  split_ifs with h
  · simp only [Pong.aiStep_width, Pong.aiStep_height, Pong.aiStep_ph,
      Pong.gameOverStep_width, Pong.gameOverStep_height, Pong.gameOverStep_ph]
    unfold Pong.scoringStep
    split_ifs <;> simp
  · exact ⟨rfl, rfl, rfl⟩

/-- Claim C3: in an active mode, if a single `update` ends with
`player1_score = 1` (or `player2_score = 1`) after the advance and scoring
steps, that same call sets the mode to `GameOver`; and from `GameOver`,
`update` changes nothing at all (state and seed alike). -/
theorem update_game_over_transition (s : Pong) (seed : Nat) :
    ((s.game_mode = GameMode.OnePlayer ∨ s.game_mode = GameMode.TwoPlayer) →
      ((s.update seed).1.player1_score = 1 ∨ (s.update seed).1.player2_score = 1) →
      (s.update seed).1.game_mode = GameMode.GameOver) ∧
    (s.game_mode = GameMode.GameOver → s.update seed = (s, seed)) := by
  constructor
  · intro hmode hsc
    simp only [Pong.update, if_pos hmode] at hsc ⊢
    simp only [Pong.aiStep_player1_score, Pong.aiStep_player2_score,
      Pong.gameOverStep_player1_score, Pong.gameOverStep_player2_score] at hsc
    rw [Pong.aiStep_game_mode]
    exact Pong.gameOverStep_mode_of _ (by omega)
  · intro h
    simp only [Pong.update]
    rw [if_neg (by simp [h])]

/-- Witness for C3 at concrete states: `sOnePlayerWin` scores the winning
point in one update and lands in `GameOver`; updating the finished game
`sFinished` changes nothing. -/
theorem update_game_over_transition_w :
    (sOnePlayerWin.update 0).1.game_mode = GameMode.GameOver ∧
      sFinished.update 7 = (sFinished, 7) :=
  ⟨(update_game_over_transition sOnePlayerWin 0).1 (Or.inl rfl) (Or.inl (by decide)),
    (update_game_over_transition sFinished 7).2 rfl⟩

/-- Claim C10: `update` reflects the vertical velocity at the top bound but
does not clamp the stored position: from `sTopWrap` (in bounds, `ball_y = 1`,
`ball_dy = -1`, no score in this step) one update flips `ball_dy` to `+1`
yet stores a `ball_y` at least `height` (the advance wrapped modulo
`2 ^ 64`). -/
theorem update_reflects_but_no_clamp :
    sTopWrap.game_mode = GameMode.OnePlayer ∧ sTopWrap.ball_y ≤ 1 ∧
      sTopWrap.ball_dy = -1 ∧ sTopWrap.ball_y < sTopWrap.height ∧
      (sTopWrap.update 0).1.ball_dy = 1 ∧
      (sTopWrap.update 0).1.player1_score = sTopWrap.player1_score ∧
      (sTopWrap.update 0).1.player2_score = sTopWrap.player2_score ∧
      sTopWrap.height ≤ (sTopWrap.update 0).1.ball_y := by decide

/-- Claim C2 (divergence witness): a two-player game that player one wins
lands in `GameOver`, but the `'p'` replay handler then reconstructs the mode
from the scores (`player1_score >= 1` picks `OnePlayer`) instead of the
last active mode, so the replay restarts in `OnePlayer` although the game
was a two-player game. Both scores are reset to 0 as specified. -/
theorem replay_mode_divergence :
    sTwoPlayerWin.game_mode = GameMode.TwoPlayer ∧
      (sTwoPlayerWin.update 0).1.game_mode = GameMode.GameOver ∧
      (sTwoPlayerWin.update 0).1.player1_score = 1 ∧
      (key 'p' (sTwoPlayerWin.update 0).1 (sTwoPlayerWin.update 0).2).1.game_mode =
        GameMode.OnePlayer ∧
      (key 'p' (sTwoPlayerWin.update 0).1 (sTwoPlayerWin.update 0).2).1.player1_score = 0 ∧
      (key 'p' (sTwoPlayerWin.update 0).1 (sTwoPlayerWin.update 0).2).1.player2_score = 0 := by
  decide


/-- One `move_paddle` call keeps the player-one position below the clamp
bound if it started there (the bound is unchanged by the call). -/
theorem Pong.move_paddle_bound1 (s : Pong) (b u : Bool)
    (hph : s.paddle_height ≤ s.height)
    (h : s.player1_y ≤ s.height - s.paddle_height) :
    (s.move_paddle b u).player1_y ≤ s.height - s.paddle_height := by
  cases b with
  | false => simpa using h
  | true =>
    cases u with
    | false =>
      have e : (s.move_paddle true false).player1_y =
          min ((s.player1_y + 25) % 2 ^ 64)
            (wrapU64 ((s.height : Int) - (s.paddle_height : Int))) := rfl
      rw [e]
      refine le_trans (min_le_right _ _) ?_
      unfold wrapU64; omega
    | true =>
      have e : (s.move_paddle true true).player1_y = s.player1_y - 25 := rfl
      rw [e]; omega

/-- One `move_paddle` call keeps the player-two position below the clamp
bound if it started there. -/
theorem Pong.move_paddle_bound2 (s : Pong) (b u : Bool)
    (hph : s.paddle_height ≤ s.height)
    (h : s.player2_y ≤ s.height - s.paddle_height) :
    (s.move_paddle b u).player2_y ≤ s.height - s.paddle_height := by
  cases b with
  | true => simpa using h
  | false =>
    cases u with
    | false =>
      have e : (s.move_paddle false false).player2_y =
          min ((s.player2_y + 25) % 2 ^ 64)
            (wrapU64 ((s.height : Int) - (s.paddle_height : Int))) := rfl
      rw [e]
      refine le_trans (min_le_right _ _) ?_
      unfold wrapU64; omega
    | true =>
      have e : (s.move_paddle false true).player2_y = s.player2_y - 25 := rfl
      rw [e]; omega

/-- Claim C7: with `paddle_height ≤ height`, any finite sequence of
`move_paddle` calls (either player, either direction) keeps a paddle that
starts inside `[0, height - paddle_height]` inside that interval. -/
theorem move_paddle_clamped (s : Pong) (ms : List (Bool × Bool))
    (hph : s.paddle_height ≤ s.height) :
    (s.player1_y ≤ s.height - s.paddle_height →
      (movePaddles s ms).player1_y ≤ s.height - s.paddle_height) ∧
    (s.player2_y ≤ s.height - s.paddle_height →
      (movePaddles s ms).player2_y ≤ s.height - s.paddle_height) := by
  induction ms generalizing s with
  | nil => exact ⟨fun h => h, fun h => h⟩
  | cons m rest ih =>
    have hgeom1 : (s.move_paddle m.1 m.2).height = s.height := by simp
    have hgeom2 : (s.move_paddle m.1 m.2).paddle_height = s.paddle_height := by simp
    have ih' := ih (s.move_paddle m.1 m.2) (by rw [hgeom1, hgeom2]; exact hph)
    rw [hgeom1, hgeom2] at ih'
    constructor
    · intro h1
      exact ih'.1 (Pong.move_paddle_bound1 s m.1 m.2 hph h1)
    · intro h2
      exact ih'.2 (Pong.move_paddle_bound2 s m.1 m.2 hph h2)

/-- Witness for C7: a fresh 640x480 board with both paddles centered stays
clamped through a concrete sequence of moves. -/
theorem move_paddle_clamped_w :
    (movePaddles (Pong.new 640 480) [(true, false), (false, false), (true, true)]).player1_y ≤
        (Pong.new 640 480).height - (Pong.new 640 480).paddle_height ∧
      (movePaddles (Pong.new 640 480) [(true, false), (false, false), (true, true)]).player2_y ≤
        (Pong.new 640 480).height - (Pong.new 640 480).paddle_height := by
  have h := move_paddle_clamped (Pong.new 640 480)
    [(true, false), (false, false), (true, true)] (by decide)
  exact ⟨h.1 (by decide), h.2 (by decide)⟩

/-- A state with the player-one score at `u32::MAX`, one step from scoring on
the right. -/
def sMaxScore : Pong where
  game_mode := GameMode.TwoPlayer
  ball_x := 60
  ball_y := 50
  ball_dx := 1
  ball_dy := 1
  player1_y := 10
  player2_y := 10
  player1_score := 4294967295
  player2_score := 0
  width := 90
  height := 200
  paddle_height := 50

/-- Counterexample to C9 as stated: with `player1_score = u32::MAX`, the
next scoring update wraps the `u32` increment to 0, strictly decreasing the
score. -/
theorem update_score_decrease_cex :
    (sMaxScore.update 0).1.player1_score < sMaxScore.player1_score := by decide

/-- Claim C9 (amended): provided each score is below `u32::MAX` (so the
wrapping `u32` increment cannot overflow), a single `update` never
decreases either score. -/
theorem update_scores_monotone (s : Pong) (seed : Nat)
    (h1 : s.player1_score < 2 ^ 32 - 1) (h2 : s.player2_score < 2 ^ 32 - 1) :
    s.player1_score ≤ (s.update seed).1.player1_score ∧
      s.player2_score ≤ (s.update seed).1.player2_score := by
  simp only [Pong.update]
  split_ifs with h
  · simp only [Pong.aiStep_player1_score, Pong.aiStep_player2_score,
      Pong.gameOverStep_player1_score, Pong.gameOverStep_player2_score]
    unfold Pong.scoringStep
    split_ifs <;> simp <;> omega
  · simp

/-- Witness for C9 (amended) at `sOnePlayerWin` (scores 0 and 0). -/
theorem update_scores_monotone_w :
    sOnePlayerWin.player1_score ≤ (sOnePlayerWin.update 0).1.player1_score ∧
      sOnePlayerWin.player2_score ≤ (sOnePlayerWin.update 0).1.player2_score :=
  update_scores_monotone sOnePlayerWin 0 (by decide) (by decide)

/-- Unfolding of `update` in an active mode. -/
theorem Pong.update_active (s : Pong) (seed : Nat)
    (hmode : s.game_mode = GameMode.OnePlayer ∨ s.game_mode = GameMode.TwoPlayer) :
    s.update seed =
      (Pong.aiStep (Pong.gameOverStep
          (Pong.scoringStep (Pong.paddleStep (Pong.bounceY (Pong.advanceBall s))) seed).1),
        (Pong.scoringStep (Pong.paddleStep (Pong.bounceY (Pong.advanceBall s))) seed).2) := by
  simp only [Pong.update, if_pos hmode]

/-- The ball x position entering the scoring test is the advanced one. -/
theorem Pong.pipeline_ball_x (s : Pong) :
    (Pong.paddleStep (Pong.bounceY (Pong.advanceBall s))).ball_x =
      wrapU64 ((s.ball_x : Int) + s.ball_dx * 36) := by
  simp [Pong.advanceBall_ball_x]

/-- A two-player state whose `ball_x` already equals `width` but whose next
update moves the ball back inside the board. -/
def sRightMiss : Pong where
  game_mode := GameMode.TwoPlayer
  ball_x := 100
  ball_y := 50
  ball_dx := -1
  ball_dy := 1
  player1_y := 10
  player2_y := 10
  player1_score := 0
  player2_score := 0
  width := 100
  height := 200
  paddle_height := 50

/-- Counterexample to C5 as stated: `sRightMiss` has `ball_x >= width`
before the call, yet the update first advances the ball (dx = -1 brings it
back inside), so no point is scored and the ball is not recentered. -/
theorem right_exit_precondition_cex :
    sRightMiss.width ≤ sRightMiss.ball_x ∧
      sRightMiss.game_mode = GameMode.TwoPlayer ∧
      (sRightMiss.update 0).1.player1_score = sRightMiss.player1_score ∧
      (sRightMiss.update 0).1.ball_x ≠ sRightMiss.width / 2 := by decide

/-- Claim C5 (amended): if the advanced ball position
`(ball_x + 36 * ball_dx) mod 2 ^ 64` is nonzero and at least `width`, and
`player1_score` is below `u32::MAX`, one `update` increments
`player1_score` by exactly 1 and recenters the ball. -/
theorem right_exit_amended (s : Pong) (seed : Nat)
    (hmode : s.game_mode = GameMode.OnePlayer ∨ s.game_mode = GameMode.TwoPlayer)
    (h0 : 0 < wrapU64 ((s.ball_x : Int) + s.ball_dx * 36))
    (hw : s.width ≤ wrapU64 ((s.ball_x : Int) + s.ball_dx * 36))
    (hsc : s.player1_score < 2 ^ 32 - 1) :
    (s.update seed).1.player1_score = s.player1_score + 1 ∧
      (s.update seed).1.ball_x = s.width / 2 ∧
      (s.update seed).1.ball_y = s.height / 2 := by
  rw [Pong.update_active s seed hmode,
    Pong.scoringStep_right _ seed (by rw [Pong.pipeline_ball_x]; exact h0)
      (by simp only [Pong.pipeline_ball_x, Pong.paddleStep_width, Pong.bounceY_width,
        Pong.advanceBall_width]; exact hw)]
  refine ⟨?_, ?_, ?_⟩ <;> simp <;> omega

/-- Witness for C5 (amended): a one-player state whose advanced ball lands
past the right edge. -/
theorem right_exit_amended_w :
    (sOnePlayerWin.update 3).1.player1_score = sOnePlayerWin.player1_score + 1 ∧
      (sOnePlayerWin.update 3).1.ball_x = sOnePlayerWin.width / 2 ∧
      (sOnePlayerWin.update 3).1.ball_y = sOnePlayerWin.height / 2 :=
  right_exit_amended sOnePlayerWin 3 (Or.inl rfl) (by decide) (by decide) (by decide)

/-- A one-player state with the player-two score at `u32::MAX`, about to
concede on the left. -/
def sLeftWrap : Pong where
  game_mode := GameMode.OnePlayer
  ball_x := 36
  ball_y := 50
  ball_dx := -1
  ball_dy := 1
  player1_y := 10
  player2_y := 10
  player1_score := 0
  player2_score := 4294967295
  width := 200
  height := 300
  paddle_height := 50

/-- Counterexample to C4 as stated: on a left exit with
`player2_score = u32::MAX` the wrapping `u32` increment produces 0 rather
than the old score plus one. -/
theorem score_increment_wrap_cex :
    wrapU64 ((sLeftWrap.ball_x : Int) + sLeftWrap.ball_dx * 36) = 0 ∧
      (sLeftWrap.update 0).1.player2_score ≠ sLeftWrap.player2_score + 1 ∧
      (sLeftWrap.update 0).1.player2_score = 0 := by decide

/-- Claim C4 (amended): on a left exit (advanced ball position 0), with the
opposing score below `u32::MAX`, `update` increments `player2_score` by
exactly 1, recenters the ball and re-randomizes its direction from the
generator; symmetrically for a right exit and `player1_score`. -/
theorem exit_scoring_amended (s : Pong) (seed : Nat)
    (hmode : s.game_mode = GameMode.OnePlayer ∨ s.game_mode = GameMode.TwoPlayer) :
    (wrapU64 ((s.ball_x : Int) + s.ball_dx * 36) = 0 →
      s.player2_score < 2 ^ 32 - 1 →
      (s.update seed).1.player2_score = s.player2_score + 1 ∧
      (s.update seed).1.player1_score = s.player1_score ∧
      (s.update seed).1.ball_x = s.width / 2 ∧
      (s.update seed).1.ball_y = s.height / 2 ∧
      (s.update seed).1.ball_dx = (if fast_rand seed % 2 = 0 then 1 else -1) ∧
      (s.update seed).1.ball_dy = (if fast_rand (fast_rand seed) % 2 = 0 then 1 else -1) ∧
      (s.update seed).2 = fast_rand (fast_rand seed)) ∧
    (0 < wrapU64 ((s.ball_x : Int) + s.ball_dx * 36) →
      s.width ≤ wrapU64 ((s.ball_x : Int) + s.ball_dx * 36) →
      s.player1_score < 2 ^ 32 - 1 →
      (s.update seed).1.player1_score = s.player1_score + 1 ∧
      (s.update seed).1.player2_score = s.player2_score ∧
      (s.update seed).1.ball_x = s.width / 2 ∧
      (s.update seed).1.ball_y = s.height / 2 ∧
      (s.update seed).1.ball_dx = (if fast_rand seed % 2 = 0 then 1 else -1) ∧
      (s.update seed).1.ball_dy = (if fast_rand (fast_rand seed) % 2 = 0 then 1 else -1) ∧
      (s.update seed).2 = fast_rand (fast_rand seed)) := by
  constructor
  · intro hb hsc
    rw [Pong.update_active s seed hmode,
      Pong.scoringStep_left _ seed (by rw [Pong.pipeline_ball_x]; exact hb)]
    refine ⟨?_, ?_, ?_, ?_, ?_, ?_, ?_⟩ <;>
      simp [Pong.reset_ball_dx, Pong.reset_ball_dy] <;> omega
  · intro h0 hw hsc
    rw [Pong.update_active s seed hmode,
      Pong.scoringStep_right _ seed (by rw [Pong.pipeline_ball_x]; exact h0)
        (by simp only [Pong.pipeline_ball_x, Pong.paddleStep_width, Pong.bounceY_width,
          Pong.advanceBall_width]; exact hw)]
    refine ⟨?_, ?_, ?_, ?_, ?_, ?_, ?_⟩ <;>
      simp [Pong.reset_ball_dx, Pong.reset_ball_dy] <;> omega

/-- Witness for C4 (amended) at a concrete left exit. -/
theorem exit_scoring_amended_w :
    (sLeftWrap.game_mode = GameMode.OnePlayer) ∧
      ((Pong.update { sLeftWrap with player2_score := 0 } 0).1.player2_score = 0 + 1 ∧
        (Pong.update { sLeftWrap with player2_score := 0 } 0).1.ball_x = 100) := by
  have h := (exit_scoring_amended { sLeftWrap with player2_score := 0 } 0
    (Or.inl rfl)).1 (by decide) (by decide)
  exact ⟨rfl, h.1, h.2.2.1⟩

/-- A one-player state at the top boundary about to exit on the left, with
a seed whose two generator draws both come out odd. -/
def sTopExit : Pong where
  game_mode := GameMode.OnePlayer
  ball_x := 36
  ball_y := 1
  ball_dx := -1
  ball_dy := -1
  player1_y := 275
  player2_y := 275
  player1_score := 0
  player2_score := 0
  width := 800
  height := 600
  paddle_height := 50

/-- Counterexample to C6 as stated: from `sTopExit` (top boundary,
`ball_dy = -1`, `OnePlayer`) the same update also scores on the left, and
the `reset` re-randomization draws `-1` again (seed 1), so after the call
`ball_dy` is still `-1`, not `+1`. -/
theorem top_bounce_cex :
    sTopExit.game_mode = GameMode.OnePlayer ∧ sTopExit.ball_y ≤ 1 ∧
      sTopExit.ball_dy = -1 ∧ (sTopExit.update 1).1.ball_dy = -1 := by decide

/-- Claim C6 (amended): in `OnePlayer` with the ball at the top boundary
(`ball_y <= 1`) and `ball_dy = -1`, provided `2 <= height <= 2 ^ 64 - 34`
(so the wrapped advance still trips the `height - 2` test) and the advanced
ball stays strictly inside the horizontal bounds (so no score re-randomizes
the direction), one `update` flips `ball_dy` to `+1`. -/
theorem top_bounce_amended (s : Pong) (seed : Nat)
    (hmode : s.game_mode = GameMode.OnePlayer)
    (hy : s.ball_y ≤ 1) (hdy : s.ball_dy = -1)
    (hh2 : 2 ≤ s.height) (hhU : s.height ≤ 2 ^ 64 - 34)
    (h0 : 0 < wrapU64 ((s.ball_x : Int) + s.ball_dx * 36))
    (hw : wrapU64 ((s.ball_x : Int) + s.ball_dx * 36) < s.width) :
    (s.update seed).1.ball_dy = 1 := by
  rw [Pong.update_active s seed (Or.inl hmode),
    Pong.scoringStep_none _ seed (by rw [Pong.pipeline_ball_x]; exact h0)
      (by simp only [Pong.pipeline_ball_x, Pong.paddleStep_width, Pong.bounceY_width,
        Pong.advanceBall_width]; exact hw)]
  simp only [Pong.aiStep_ball_dy, Pong.gameOverStep_ball_dy, Pong.paddleStep_ball_dy]
  rw [Pong.bounceY_ball_dy]
  have hby : (Pong.advanceBall s).ball_y = 18446744073709551580 + s.ball_y := by
    rw [Pong.advanceBall_ball_y, hdy]; unfold wrapU64; omega
  rw [if_pos ?hcond]
  case hcond =>
    refine Or.inr ?_
    rw [hby, Pong.advanceBall_height]
    unfold wrapU64; omega
  rw [Pong.advanceBall_ball_dy, hdy]; decide

/-- A one-player state at the top boundary whose advance stays inside the
horizontal bounds. -/
def sTopBounce : Pong where
  game_mode := GameMode.OnePlayer
  ball_x := 400
  ball_y := 1
  ball_dx := 1
  ball_dy := -1
  player1_y := 300
  player2_y := 300
  player1_score := 0
  player2_score := 0
  width := 1000
  height := 600
  paddle_height := 50

/-- Witness for C6 (amended) at `sTopBounce`. -/
theorem top_bounce_amended_w : (sTopBounce.update 0).1.ball_dy = 1 :=
  top_bounce_amended sTopBounce 0 rfl (by decide) rfl (by decide) (by decide)
    (by decide) (by decide)

/-- Claim C1: the key handler applies an effect only under the listed mode
guards: `'1'`/`'2'` act only from `Menu` (entering `OnePlayer`/`TwoPlayer`),
`'r'`/`'p'` act only from `GameOver`, `'w'`/`'s'` move the player-one paddle
in any mode (never touching mode or scores), `'i'`/`'k'` act only in
`TwoPlayer`, and any other character (or a guarded character in a
disallowed mode) leaves the state, in particular mode and scores,
unchanged. -/
theorem key_guard_spec (s : Pong) (seed : Nat) (c : Char) :
    (s.game_mode ≠ GameMode.Menu →
      key '1' s seed = (s, seed) ∧ key '2' s seed = (s, seed)) ∧
    (s.game_mode = GameMode.Menu →
      (key '1' s seed).1.game_mode = GameMode.OnePlayer ∧
      (key '2' s seed).1.game_mode = GameMode.TwoPlayer) ∧
    (s.game_mode ≠ GameMode.GameOver →
      key 'r' s seed = (s, seed) ∧ key 'p' s seed = (s, seed)) ∧
    key 'w' s seed = (s.move_paddle true true, seed) ∧
    key 's' s seed = (s.move_paddle true false, seed) ∧
    (s.game_mode ≠ GameMode.TwoPlayer →
      key 'i' s seed = (s, seed) ∧ key 'k' s seed = (s, seed)) ∧
    (s.game_mode = GameMode.TwoPlayer →
      key 'i' s seed = (s.move_paddle false true, seed) ∧
      key 'k' s seed = (s.move_paddle false false, seed)) ∧
    (∀ b u : Bool, (s.move_paddle b u).game_mode = s.game_mode ∧
      (s.move_paddle b u).player1_score = s.player1_score ∧
      (s.move_paddle b u).player2_score = s.player2_score) ∧
    (c ∉ (['1', '2', 'r', 'p', 'w', 's', 'i', 'k'] : List Char) →
      key c s seed = (s, seed)) := by
  refine ⟨?_, ?_, ?_, ?_, ?_, ?_, ?_, ?_, ?_⟩
  · intro h; constructor <;> simp +decide [key, h]
  · intro h; constructor <;> simp +decide [key, h]
  · intro h; constructor <;> simp +decide [key, h]
  · simp +decide [key]
  · simp +decide [key]
  · intro h; constructor <;> simp +decide [key, h]
  · intro h; constructor <;> simp +decide [key, h]
  · intro b u; exact ⟨by simp, by simp, by simp⟩
  · intro h
    simp only [List.mem_cons, List.not_mem_nil, or_false, not_or] at h
    obtain ⟨h1, h2, h3, h4, h5, h6, h7, h8⟩ := h
    simp [key, h1, h2, h3, h4, h5, h6, h7, h8]

/-- Witness for C1: on a fresh menu board, an unrecognized character is
ignored, `'1'` starts a one-player game, and `'i'` (disallowed outside
`TwoPlayer`) is ignored. -/
theorem key_guard_spec_w :
    key 'x' (Pong.new 640 480) 5 = (Pong.new 640 480, 5) ∧
      (key '1' (Pong.new 640 480) 5).1.game_mode = GameMode.OnePlayer ∧
      key 'i' (Pong.new 640 480) 5 = (Pong.new 640 480, 5) ∧
      key 'r' (Pong.new 640 480) 5 = (Pong.new 640 480, 5) := by
  have h := key_guard_spec (Pong.new 640 480) 5 'x'
  exact ⟨h.2.2.2.2.2.2.2.2 (by decide), (h.2.1 rfl).1,
    (h.2.2.2.2.2.1 (by decide)).1, (h.2.2.1 (by decide)).1⟩
